import Mathlib

/-!
Shallow embedding of the ChatECNU-Desktop meeting-recorder module
(`src/meeting-recorder.js`): the `MeetingRecorder` class (capture,
mixing, chunked encoding, cleanup) and the `MeetingAPI` class
(session creation, chunk submission, session end).

Streams are modelled as lists of track ids; world effects (stopping a
media track, closing an audio context) are recorded in explicit log
fields of the state, so "every acquired track is stopped" and
"the mixing graph is released" are stateable.  Host-API outcomes
(getUserMedia results, desktopCapturer sources, MediaRecorder
construction, HTTP responses) are supplied as explicit environment
arguments, since they are external to the program.
-/

namespace MeetingRec

/-- A media stream: its audio tracks and video tracks, by track id.
Mirrors `MediaStream` with `getAudioTracks`/`getVideoTracks`. -/
structure Stream where
  audioTracks : List Nat
  videoTracks : List Nat
deriving DecidableEq

/-- `stream.getTracks()`: all tracks of the stream. -/
def Stream.getTracks (s : Stream) : List Nat :=
  s.audioTracks ++ s.videoTracks

/-- The `AudioContext` mixing graph created by `mixAudioStreams`:
its sample rate, the sources connected into the single destination,
and the destination's combined stream. -/
structure AudioContextObj where
  sampleRate : Nat
  sources : List Stream
  destStream : Stream
deriving DecidableEq

/-- The `MediaRecorder` object created in `start`. -/
structure MediaRecorderObj where
  stream : Stream
  mimeType : String
  audioBitsPerSecond : Nat
deriving DecidableEq

/-- The mutable fields of a `MeetingRecorder` instance, plus two log
fields recording external effects: `stoppedTracks` (every track id on
which `track.stop()` has been called) and `closedContexts` (every
audio context on which `close()` has been called). -/
structure RecState where
  mediaRecorder : Option MediaRecorderObj
  audioContext : Option AudioContextObj
  micStream : Option Stream
  systemStream : Option Stream
  mixedStream : Option Stream
  audioChunks : List Nat
  sequence : Nat
  isRecording : Bool
  stoppedTracks : List Nat
  closedContexts : List AudioContextObj
deriving DecidableEq

/-- The state built by the `MeetingRecorder` constructor. -/
def initState : RecState where
  mediaRecorder := none
  audioContext := none
  micStream := none
  systemStream := none
  mixedStream := none
  audioChunks := []
  sequence := 0
  isRecording := false
  stoppedTracks := []
  closedContexts := []

/-- Options for `start`: `{ includeMic, includeSystem }`. -/
structure Options where
  includeMic : Bool
  includeSystem : Bool
deriving DecidableEq

/-- Host-environment outcomes consumed by one `start` call:
`micResult` is what `getUserMedia` for the microphone yields (`none`
means the call rejects), `screenSources` is what
`desktopCapturer.getSources` returns, `systemResult` is what the
desktop-capture `getUserMedia` yields (`none` means it rejects), and
`recorderOk` is whether the `MediaRecorder` constructor succeeds.
`destTrack` is the track id of the stream produced by
`createMediaStreamDestination`. -/
structure Env where
  micResult : Option Stream
  screenSources : List Nat
  systemResult : Option Stream
  recorderOk : Bool
  destTrack : Nat
deriving DecidableEq

/-- The errors `MeetingRecorder` can raise. `alreadyRecording` is
`'录音已在进行中'`, `micPermission` is `'无法获取麦克风权限: ...'`,
`noSource` is `'没有可用的音频流'`, and `recorderCreation` stands for
a failing `MediaRecorder` constructor. -/
inductive RecError
  | alreadyRecording
  | micPermission
  | noSource
  | recorderCreation
deriving DecidableEq

/-- Internal errors of `getSystemAudioStream`, all caught inside it:
`'没有可用的屏幕源'`, a rejecting `getUserMedia`, `'无法获取系统音频'`. -/
inductive SysAudioErr
  | noScreenSource
  | getUserMediaFailed
  | noAudioTrack
deriving DecidableEq

/-- `getMicrophoneStream`: `getUserMedia` with speech constraints;
on rejection it rethrows the wrapped permission error. -/
def getMicrophoneStream (env : Env) : Except RecError Stream :=
  match env.micResult with
  | none => .error .micPermission
  | some m => .ok m

/-- The `try`-block body of `getSystemAudioStream`.  On success it
returns the audio-only stream (`new MediaStream(audioTracks)`) and the
list of video tracks stopped on the way.  Note that when the acquired
stream has no audio track the error is thrown BEFORE the video tracks
are stopped, so nothing is stopped on that path. -/
def getSystemAudioInner (env : Env) : Except SysAudioErr (Stream × List Nat) :=
  if env.screenSources.isEmpty then .error .noScreenSource
  else
    match env.systemResult with
    | none => .error .getUserMediaFailed
    | some stream =>
      if stream.audioTracks.isEmpty then .error .noAudioTrack
      else .ok (⟨stream.audioTracks, []⟩, stream.videoTracks)

/-- `getSystemAudioStream`: every internal failure is caught and turned
into `none` (system audio is non-fatal).  The second component is the
list of track ids stopped during the call. -/
def getSystemAudioStream (env : Env) : Option Stream × List Nat :=
  match getSystemAudioInner env with
  | .error _ => (none, [])
  | .ok (s, stopped) => (some s, stopped)

/-- `mixAudioStreams(streams)`: filter out `null` streams; zero valid
streams throws `'没有可用的音频流'`; exactly one is returned unchanged;
two or more are mixed through a fresh 16 kHz `AudioContext` whose
destination stream is returned. -/
def mixAudioStreams (s : RecState) (env : Env) (streams : List (Option Stream)) :
    Except RecError (Stream × RecState) :=
  let validStreams := streams.filterMap id
  if validStreams.isEmpty then .error .noSource
  else if validStreams.length = 1 then .ok (validStreams.headD ⟨[], []⟩, s)
  else
    let dest : Stream := ⟨[env.destTrack], []⟩
    let ctx : AudioContextObj := ⟨16000, validStreams, dest⟩
    .ok (dest, { s with audioContext := some ctx })

/-- The `try`-block of `start`: acquisition, mixing and recorder setup.
On a throw, the error is returned together with the state at the moment
of the throw (which the `catch` block then cleans up). -/
def startTry (s0 : RecState) (env : Env) (opts : Options) :
    Except (RecError × RecState) RecState :=
  let micStep : Except (RecError × RecState) (RecState × List (Option Stream)) :=
    if opts.includeMic then
      match getMicrophoneStream env with
      | .error e => .error (e, s0)
      | .ok m => .ok ({ s0 with micStream := some m }, [some m])
    else .ok (s0, [])
  match micStep with
  | .error e => .error e
  | .ok (s1, streams1) =>
    let sysStep : RecState × List (Option Stream) :=
      if opts.includeSystem then
        let (sys, stoppedVid) := getSystemAudioStream env
        let s' : RecState :=
          { s1 with systemStream := sys
                    stoppedTracks := s1.stoppedTracks ++ stoppedVid }
        match sys with
        | some st => (s', streams1 ++ [some st])
        | none => (s', streams1)
      else (s1, streams1)
    match mixAudioStreams sysStep.1 env sysStep.2 with
    | .error e => .error (e, sysStep.1)
    | .ok (mixed, s3) =>
      let s4 : RecState := { s3 with mixedStream := some mixed }
      if env.recorderOk then
        .ok { s4 with
          mediaRecorder := some ⟨mixed, "audio/webm;codecs=opus", 64000⟩
          sequence := 0
          audioChunks := []
          isRecording := true }
      else .error (.recorderCreation, s4)

/-- `cleanup()`: stop every track of `micStream` and `systemStream`,
close the audio context, clear all references, drop the recording flag.
`sequence` and `audioChunks` are untouched. -/
def cleanup (s : RecState) : RecState :=
  let s1 : RecState :=
    match s.micStream with
    | some st =>
        { s with stoppedTracks := s.stoppedTracks ++ st.getTracks
                 micStream := none }
    | none => s
  let s2 : RecState :=
    match s1.systemStream with
    | some st =>
        { s1 with stoppedTracks := s1.stoppedTracks ++ st.getTracks
                  systemStream := none }
    | none => s1
  let s3 : RecState :=
    match s2.audioContext with
    | some ctx =>
        { s2 with closedContexts := s2.closedContexts ++ [ctx]
                  audioContext := none }
    | none => s2
  { s3 with mixedStream := none, mediaRecorder := none, isRecording := false }

/-- `start(options)`: reject at once when already recording; otherwise
run the acquisition/mixing/setup body, and on any throw run `cleanup`
before propagating the error.  The returned pair is the final state and
`none` on success / `some e` when `start` rejected with `e`. -/
def start (s : RecState) (env : Env) (opts : Options) :
    RecState × Option RecError :=
  if s.isRecording then (s, some .alreadyRecording)
  else
    match startTry s env opts with
    | .ok s' => (s', none)
    | .error (e, sAtThrow) => (cleanup sAtThrow, some e)

/-- One emitted audio chunk: the callback arguments
`(blob, sequence, timestamp)` with the blob abstracted to its size. -/
structure Chunk where
  size : Nat
  sequence : Nat
  timestamp : Nat
deriving DecidableEq

/-- The `ondataavailable` handler installed by `start`: a non-empty
flush increments `this.sequence` and invokes the chunk callback with
the incremented value; a zero-byte flush does nothing. -/
def ondataavailable (s : RecState) (size timestamp : Nat) :
    RecState × Option Chunk :=
  if 0 < size then
    let s' : RecState := { s with sequence := s.sequence + 1 }
    (s', some ⟨size, s'.sequence, timestamp⟩)
  else (s, none)

/-- Run `ondataavailable` over a list of timer flushes
`(size, timestamp)`, collecting every callback invocation in order. -/
def runFlushes (s : RecState) (events : List (Nat × Nat)) :
    RecState × List Chunk :=
  match events with
  | [] => (s, [])
  | (size, ts) :: rest =>
    let step := ondataavailable s size ts
    let next := runFlushes step.1 rest
    (next.1, step.2.toList ++ next.2)

/-- The track ids of every stream returned by a `getUserMedia` call
during one `start` run: the microphone stream when requested and
granted, and the desktop-capture stream when system audio was requested,
the microphone step did not throw first, and `getSources` returned at
least one source. -/
def acquiredTracks (env : Env) (opts : Options) : List Nat :=
  if opts.includeMic && env.micResult.isNone then []
  else
    (if opts.includeMic then
       (env.micResult.map Stream.getTracks).getD []
     else []) ++
    (if opts.includeSystem && !env.screenSources.isEmpty then
       (env.systemResult.map Stream.getTracks).getD []
     else [])

end MeetingRec

namespace MeetingAPIMod

/-- The mutable fields of a `MeetingAPI` instance. -/
structure APIState where
  baseUrl : String
  meetingId : Option String
deriving DecidableEq

/-- Errors raised by `MeetingAPI`: `meetingNotCreated` is
`'会议未创建'`; the three `Failed` constructors carry the non-2xx HTTP
status (`'创建会议失败'`, `'提交音频失败'`, `'结束会议失败'`);
`networkError` is a rejecting `fetch`. -/
inductive APIError
  | meetingNotCreated
  | createFailed (status : Nat)
  | submitFailed (status : Nat)
  | endFailed (status : Nat)
  | networkError
deriving DecidableEq

/-- One HTTP request issued via `fetch`: its URL, method, and (for the
multipart audio submission) the string-encoded sequence and timestamp
form fields. -/
structure Request where
  url : String
  method : String
  seqField : Option String
  tsField : Option String
deriving DecidableEq

/-- Parsed response of `POST /meeting/create`. -/
structure CreateResponse where
  ok : Bool
  status : Nat
  meetingId : String
deriving DecidableEq

/-- Parsed response of `POST /meeting/{id}/audio`. -/
structure SubmitResponse where
  ok : Bool
  status : Nat
  transcript : String
deriving DecidableEq

/-- Parsed response of `POST /meeting/{id}/end`. -/
structure EndResponse where
  ok : Bool
  status : Nat
  finalSummary : String
  duration : Nat
deriving DecidableEq

/-- `createMeeting(userId, title)`: POST to `{baseUrl}/create`; a
network error or non-2xx status rethrows with the state untouched; on
success `this.meetingId` is set to the returned `meetingId`.  The
response (`none` = fetch rejects) is an environment argument.  Result:
(new state, requests issued, outcome). -/
def createMeeting (s : APIState) (resp : Option CreateResponse)
    (_userId _title : String) :
    APIState × List Request × Except APIError CreateResponse :=
  let req : Request := ⟨s.baseUrl ++ "/create", "POST", none, none⟩
  match resp with
  | none => (s, [req], .error .networkError)
  | some r =>
    if !r.ok then (s, [req], .error (.createFailed r.status))
    else ({ s with meetingId := some r.meetingId }, [req], .ok r)

/-- `submitAudio(audioBlob, sequence, timestamp)`: throws
`'会议未创建'` before any fetch when no meeting id is set; otherwise
POSTs the multipart form to `{baseUrl}/{id}/audio`.  No branch ever
mutates the state. -/
def submitAudio (s : APIState) (resp : Option SubmitResponse)
    (_audioSize seq ts : Nat) :
    APIState × List Request × Except APIError SubmitResponse :=
  match s.meetingId with
  | none => (s, [], .error .meetingNotCreated)
  | some id =>
    let req : Request :=
      ⟨s.baseUrl ++ "/" ++ id ++ "/audio", "POST",
        some (toString seq), some (toString ts)⟩
    match resp with
    | none => (s, [req], .error .networkError)
    | some r =>
      if !r.ok then (s, [req], .error (.submitFailed r.status))
      else (s, [req], .ok r)

/-- `endMeeting()`: throws `'会议未创建'` when no meeting id is set;
otherwise POSTs to `{baseUrl}/{id}/end`.  Only the success branch
clears `this.meetingId`. -/
def endMeeting (s : APIState) (resp : Option EndResponse) :
    APIState × List Request × Except APIError EndResponse :=
  match s.meetingId with
  | none => (s, [], .error .meetingNotCreated)
  | some id =>
    let req : Request := ⟨s.baseUrl ++ "/" ++ id ++ "/end", "POST", none, none⟩
    match resp with
    | none => (s, [req], .error .networkError)
    | some r =>
      if !r.ok then (s, [req], .error (.endFailed r.status))
      else ({ s with meetingId := none }, [req], .ok r)

end MeetingAPIMod

namespace MeetingRec

/-- Concrete environment: microphone granted (track 1), no screen
source, recorder construction succeeds. -/
def micOnlyEnv : Env := ⟨some ⟨[1], []⟩, [], none, true, 9⟩

/-- Concrete environment: microphone denied and no screen source, so
both acquisitions fail. -/
def bothFailEnv : Env := ⟨none, [], none, true, 9⟩

/-- Concrete environment: the desktop-capture stream has a video track
(id 7) but no audio track, so system-audio acquisition throws
`'无法获取系统音频'` before stopping the video track. -/
def noAudioSysEnv : Env := ⟨none, [1], some ⟨[], [7]⟩, true, 9⟩

/-- Concrete environment: microphone (track 1) and system audio
(audio track 2, video track 3) both granted, but the `MediaRecorder`
constructor fails. -/
def recFailEnv : Env := ⟨some ⟨[1], []⟩, [5], some ⟨[2], [3]⟩, false, 9⟩

/-- A state holding every kind of resource, for exercising `cleanup`. -/
def loadedState : RecState :=
  { initState with
      micStream := some ⟨[1], []⟩
      systemStream := some ⟨[2], []⟩
      audioContext := some ⟨16000, [⟨[1], []⟩, ⟨[2], []⟩], ⟨[9], []⟩⟩
      mixedStream := some ⟨[9], []⟩
      mediaRecorder := some ⟨⟨[9], []⟩, "audio/webm;codecs=opus", 64000⟩
      isRecording := true }

/-- `cleanup` always nulls every resource reference and drops the
recording flag. -/
theorem cleanup_clears (s : RecState) :
    (cleanup s).micStream = none ∧ (cleanup s).systemStream = none ∧
    (cleanup s).audioContext = none ∧ (cleanup s).mixedStream = none ∧
    (cleanup s).mediaRecorder = none ∧ (cleanup s).isRecording = false := by
  cases hm : s.micStream <;> cases hs : s.systemStream <;>
    cases ha : s.audioContext <;> simp [cleanup, hm, hs, ha]

/-- Tracks already stopped before `cleanup` stay stopped. -/
theorem cleanup_preserves_stopped (s : RecState) (t : Nat)
    (h : t ∈ s.stoppedTracks) : t ∈ (cleanup s).stoppedTracks := by
  cases hm : s.micStream <;> cases hs : s.systemStream <;>
    cases ha : s.audioContext <;> simp [cleanup, hm, hs, ha, h]

/-- `cleanup` stops every track of the stored microphone stream. -/
theorem cleanup_stops_mic (s : RecState) (m : Stream)
    (hm : s.micStream = some m) (t : Nat) (ht : t ∈ m.getTracks) :
    t ∈ (cleanup s).stoppedTracks := by
  cases hs : s.systemStream <;> cases ha : s.audioContext <;>
    simp [cleanup, hm, hs, ha, ht]

/-- `cleanup` stops every track of the stored system stream. -/
theorem cleanup_stops_system (s : RecState) (st : Stream)
    (hs : s.systemStream = some st) (t : Nat) (ht : t ∈ st.getTracks) :
    t ∈ (cleanup s).stoppedTracks := by
  cases hm : s.micStream <;> cases ha : s.audioContext <;>
    simp [cleanup, hm, hs, ha, ht]

/-- A successful `startTry` leaves the sequence counter reset to 0. -/
theorem startTry_ok_sequence (s : RecState) (env : Env) (opts : Options)
    (s' : RecState) (h : startTry s env opts = .ok s') : s'.sequence = 0 := by
  unfold startTry at h
  dsimp only at h
  repeat' split at h
  all_goals (first | (injection h with h; subst h; rfl) | injection h)

/-- A successful `start` leaves the sequence counter reset to 0. -/
theorem start_ok_sequence (s : RecState) (env : Env) (opts : Options)
    (s' : RecState) (h : start s env opts = (s', none)) : s'.sequence = 0 := by
  by_cases hrec : s.isRecording = true
  · simp only [start, if_pos hrec, Prod.mk.injEq] at h
    exact absurd h.2 (by simp)
  · cases hst : startTry s env opts with
    | error p =>
      simp only [start, if_neg hrec, hst, Prod.mk.injEq] at h
      exact absurd h.2 (by simp)
    | ok s2 =>
      simp only [start, if_neg hrec, hst, Prod.mk.injEq] at h
      rw [← h.1]
      exact startTry_ok_sequence s env opts s2 hst

/-- Emitted sequence numbers of a run of flushes: exactly the
consecutive integers following the starting counter value, one per
non-empty flush. -/
theorem runFlushes_map_sequence (evs : List (Nat × Nat)) : ∀ s : RecState,
    ((runFlushes s evs).2.map Chunk.sequence)
      = List.range' (s.sequence + 1) (evs.countP fun e => decide (0 < e.1)) := by
  induction evs with
  | nil => intro s; simp [runFlushes]
  | cons e rest ih =>
    intro s
    obtain ⟨size, ts⟩ := e
    by_cases h : 0 < size
    · simp [runFlushes, ondataavailable, h, ih, List.countP_cons, List.range'_succ]
    · simp [runFlushes, ondataavailable, h, ih, List.countP_cons]

end MeetingRec

namespace MeetingRec

/-- Claim C1: for every recording session the sequence numbers passed
to the per-chunk callback are exactly 1, 2, ..., k (strictly
increasing, no gaps, no repeats): a successful `start` resets the
counter to 0, each non-empty flush increments it once immediately
before the callback, and a zero-byte flush invokes no callback and
leaves the counter alone (`List.range' 1 k = [1, ..., k]`, with k the
number of non-empty flushes). -/
theorem C1_sequence_gapless (s : RecState) (env : Env) (opts : Options)
    (s' : RecState) (h : start s env opts = (s', none))
    (evs : List (Nat × Nat)) :
    s'.sequence = 0 ∧
    ((runFlushes s' evs).2.map Chunk.sequence)
      = List.range' 1 (evs.countP fun e => decide (0 < e.1)) ∧
    (∀ (st : RecState) (t : Nat), ondataavailable st 0 t = (st, none)) := by
  have hseq := start_ok_sequence s env opts s' h
  refine ⟨hseq, ?_, ?_⟩
  · rw [runFlushes_map_sequence, hseq]
  · intro st t
    simp [ondataavailable]

/-- Witness for C1: a concrete successful microphone-only start
followed by flushes of 10, 0 and 5 bytes. -/
theorem C1_sequence_gapless_witness :
    (start initState micOnlyEnv ⟨true, false⟩).1.sequence = 0 ∧
    ((runFlushes (start initState micOnlyEnv ⟨true, false⟩).1
        [(10, 1), (0, 2), (5, 3)]).2.map Chunk.sequence)
      = List.range' 1 ([(10, 1), (0, 2), (5, 3)].countP fun e => decide (0 < e.1)) ∧
    (∀ (st : RecState) (t : Nat), ondataavailable st 0 t = (st, none)) :=
  C1_sequence_gapless initState micOnlyEnv ⟨true, false⟩ _ rfl [(10, 1), (0, 2), (5, 3)]

/-- Claim C2: `start` while a recording is in progress fails at once
with AlreadyRecordingError and returns the state completely
unchanged. -/
theorem C2_already_recording_guard (s : RecState) (env : Env) (opts : Options)
    (h : s.isRecording = true) :
    start s env opts = (s, some RecError.alreadyRecording) := by
  simp [start, h]

/-- Witness for C2 at a concrete recording state. -/
theorem C2_already_recording_guard_witness :
    start { initState with isRecording := true } micOnlyEnv ⟨true, true⟩
      = ({ initState with isRecording := true }, some RecError.alreadyRecording) :=
  C2_already_recording_guard _ _ _ rfl

/-- Claim C5: `mixAudioStreams` filters out null streams; zero valid
streams fails with NoSourceError; exactly one is returned unchanged
with no audio graph created (state untouched); two or more create a
16 kHz context connecting every source to one destination, whose
stream is returned. -/
theorem C5_mix_cases (s : RecState) (env : Env) (streams : List (Option Stream)) :
    (streams.filterMap id = [] →
      mixAudioStreams s env streams = .error RecError.noSource) ∧
    (∀ x, streams.filterMap id = [x] →
      mixAudioStreams s env streams = .ok (x, s)) ∧
    (∀ v, streams.filterMap id = v → 2 ≤ v.length →
      mixAudioStreams s env streams
        = .ok (⟨[env.destTrack], []⟩,
            { s with audioContext := some ⟨16000, v, ⟨[env.destTrack], []⟩⟩ })) := by
  refine ⟨?_, ?_, ?_⟩
  · intro h
    simp [mixAudioStreams, h]
  · intro x h
    simp [mixAudioStreams, h]
  · intro v h hlen
    subst h
    have h0 : (streams.filterMap id).isEmpty = false := by
      cases hv : streams.filterMap id with
      | nil => rw [hv] at hlen; simp at hlen
      | cons a l => rfl
    have h1 : ¬ (streams.filterMap id).length = 1 := by omega
    simp [mixAudioStreams, h0, h1]

/-- Witness for C5: zero, one and two valid streams. -/
theorem C5_mix_cases_witness :
    mixAudioStreams initState micOnlyEnv [none] = .error RecError.noSource ∧
    mixAudioStreams initState micOnlyEnv [none, some ⟨[1], []⟩]
      = .ok (⟨[1], []⟩, initState) ∧
    mixAudioStreams initState micOnlyEnv [some ⟨[1], []⟩, some ⟨[2], []⟩]
      = .ok (⟨[9], []⟩,
          { initState with audioContext := some ⟨16000, [⟨[1], []⟩, ⟨[2], []⟩], ⟨[9], []⟩⟩ }) :=
  ⟨(C5_mix_cases initState micOnlyEnv [none]).1 rfl,
   (C5_mix_cases initState micOnlyEnv [none, some ⟨[1], []⟩]).2.1 _ rfl,
   (C5_mix_cases initState micOnlyEnv [some ⟨[1], []⟩, some ⟨[2], []⟩]).2.2 _ rfl
     (by decide)⟩

/-- Claim C9: `cleanup` is idempotent, and on a state where nothing was
acquired (all resource references null, flag down) it is an exact
no-op. -/
theorem C9_cleanup_idempotent (s : RecState) :
    cleanup (cleanup s) = cleanup s ∧
    (s.micStream = none → s.systemStream = none → s.audioContext = none →
      s.mixedStream = none → s.mediaRecorder = none → s.isRecording = false →
      cleanup s = s) := by
  obtain ⟨mr, ac, mic, sys, mix, ch, seq, rec, st, cc⟩ := s
  constructor
  · cases mic <;> cases sys <;> cases ac <;> simp [cleanup]
  · intro h1 h2 h3 h4 h5 h6
    dsimp only at h1 h2 h3 h4 h5 h6
    subst h1 h2 h3 h4 h5 h6
    simp [cleanup]

/-- Witness for C9: a fully loaded state and the pristine initial
state. -/
theorem C9_cleanup_idempotent_witness :
    cleanup (cleanup loadedState) = cleanup loadedState ∧
    cleanup initState = initState :=
  ⟨(C9_cleanup_idempotent loadedState).1,
   (C9_cleanup_idempotent initState).2 rfl rfl rfl rfl rfl rfl⟩

end MeetingRec

namespace MeetingAPIMod

/-- Claim C7: `endMeeting` clears the stored meeting id only on
success — any failing end call (missing id, network error, non-2xx)
leaves the whole state intact — and `submitAudio` never mutates the
state at all. -/
theorem C7_end_clears_id_only_on_success (s : APIState) (resp : Option EndResponse) :
    (∀ e, (endMeeting s resp).2.2 = .error e → (endMeeting s resp).1 = s) ∧
    (∀ r, (endMeeting s resp).2.2 = .ok r → (endMeeting s resp).1.meetingId = none) ∧
    (∀ (resp2 : Option SubmitResponse) (sz seq ts : Nat),
      (submitAudio s resp2 sz seq ts).1 = s) := by
  refine ⟨?_, ?_, ?_⟩
  · intro e he
    cases hid : s.meetingId with
    | none => simp [endMeeting, hid]
    | some id =>
      cases resp with
      | none => simp [endMeeting, hid]
      | some r =>
        cases hok : r.ok with
        | false => simp [endMeeting, hid, hok]
        | true => simp [endMeeting, hid, hok] at he
  · intro r hr
    cases hid : s.meetingId with
    | none => simp [endMeeting, hid] at hr
    | some id =>
      cases resp with
      | none => simp [endMeeting, hid] at hr
      | some r2 =>
        cases hok : r2.ok with
        | false => simp [endMeeting, hid, hok] at hr
        | true => simp [endMeeting, hid, hok]
  · intro resp2 sz seq ts
    cases hid : s.meetingId with
    | none => simp [submitAudio, hid]
    | some id =>
      cases resp2 with
      | none => simp [submitAudio, hid]
      | some r2 => cases hok : r2.ok <;> simp [submitAudio, hid, hok]

/-- Witness for C7: a failing end (HTTP 500), a succeeding end, and a
failing submit, all on a live session. -/
theorem C7_end_clears_id_only_on_success_witness :
    (endMeeting ⟨"b", some "m"⟩ (some ⟨false, 500, "x", 0⟩)).1 = ⟨"b", some "m"⟩ ∧
    (endMeeting ⟨"b", some "m"⟩ (some ⟨true, 200, "x", 7⟩)).1.meetingId = none ∧
    (submitAudio ⟨"b", some "m"⟩ none 10 1 2).1 = ⟨"b", some "m"⟩ :=
  ⟨(C7_end_clears_id_only_on_success ⟨"b", some "m"⟩ (some ⟨false, 500, "x", 0⟩)).1
      (APIError.endFailed 500) rfl,
   (C7_end_clears_id_only_on_success ⟨"b", some "m"⟩ (some ⟨true, 200, "x", 7⟩)).2.1
      ⟨true, 200, "x", 7⟩ rfl,
   (C7_end_clears_id_only_on_success ⟨"b", some "m"⟩ none).2.2 none 10 1 2⟩

/-- Claim C8: `submitAudio` with no stored meeting id fails with
NoActiveSessionError and issues no network request. -/
theorem C8_submit_requires_session (s : APIState) (resp : Option SubmitResponse)
    (sz seq ts : Nat) (h : s.meetingId = none) :
    submitAudio s resp sz seq ts = (s, [], .error APIError.meetingNotCreated) := by
  simp [submitAudio, h]

/-- Witness for C8 before any session was created. -/
theorem C8_submit_requires_session_witness :
    submitAudio ⟨"https://chat.ecnu.edu.cn/api/meeting", none⟩ none 10 1 2
      = (⟨"https://chat.ecnu.edu.cn/api/meeting", none⟩, [],
          .error APIError.meetingNotCreated) :=
  C8_submit_requires_session _ none 10 1 2 rfl

/-- Claim C10: a successful `createMeeting` while a session id is
already stored raises no error, issues only the one create request
(never an end request), and silently overwrites the stored id with the
newly returned one. -/
theorem C10_create_overwrites_session (s : APIState) (r : CreateResponse)
    (u t old : String) (_hold : s.meetingId = some old) (hok : r.ok = true) :
    createMeeting s (some r) u t
      = ({ s with meetingId := some r.meetingId },
          [⟨s.baseUrl ++ "/create", "POST", none, none⟩], .ok r) := by
  simp [createMeeting, hok]

/-- Witness for C10: session "old" silently replaced by "new". -/
theorem C10_create_overwrites_session_witness :
    createMeeting ⟨"b", some "old"⟩ (some ⟨true, 200, "new"⟩) "u1" "T"
      = (⟨"b", some "new"⟩, [⟨"b" ++ "/create", "POST", none, none⟩],
          .ok ⟨true, 200, "new"⟩) :=
  C10_create_overwrites_session ⟨"b", some "old"⟩ ⟨true, 200, "new"⟩ "u1" "T" "old" rfl rfl

end MeetingAPIMod

namespace MeetingRec

/-- Any failing `start` from a non-recording state leaves a state that
is the `cleanup` of some intermediate state. -/
theorem start_fail_state (s : RecState) (env : Env) (opts : Options)
    (h : s.isRecording = false) (e : RecError)
    (hfail : (start s env opts).2 = some e) :
    ∃ sa : RecState, (start s env opts).1 = cleanup sa := by
  cases hst : startTry s env opts with
  | ok s2 => simp [start, h, hst] at hfail
  | error p =>
    obtain ⟨e2, sa⟩ := p
    exact ⟨sa, by simp [start, h, hst]⟩

/-- Counterexample to claim C3 as stated: with both sources requested
and both acquisitions failing, `start` rejects with the microphone
AcquisitionError (`'无法获取麦克风权限'`), not with NoSourceError. -/
theorem C3_counterexample :
    (start initState bothFailEnv ⟨true, true⟩).2 = some RecError.micPermission ∧
    some RecError.micPermission ≠ some RecError.noSource :=
  ⟨rfl, by decide⟩

/-- Claim C3 (amended): `start` with both flags false fails with
NoSourceError; with only the system source requested and its
acquisition failing it also fails with NoSourceError; but when the
microphone is requested and denied, `start` fails with the microphone
AcquisitionError instead (even if the system acquisition would also
fail).  In every failure case the recording flag is left false
(RecordingState stays Idle). -/
theorem C3_amended_no_source (s : RecState) (env : Env)
    (h : s.isRecording = false) :
    ((start s env ⟨false, false⟩).2 = some RecError.noSource) ∧
    (∀ err, getSystemAudioInner env = .error err →
      (start s env ⟨false, true⟩).2 = some RecError.noSource) ∧
    (env.micResult = none → ∀ b,
      (start s env ⟨true, b⟩).2 = some RecError.micPermission) ∧
    (∀ opts e, (start s env opts).2 = some e →
      (start s env opts).1.isRecording = false) := by
  refine ⟨?_, ?_, ?_, ?_⟩
  · simp [start, h, startTry, mixAudioStreams]
  · intro err herr
    have hsys : getSystemAudioStream env = (none, []) := by
      rw [getSystemAudioStream, herr]
    simp [start, h, startTry, hsys, mixAudioStreams]
  · intro hmic b
    simp [start, h, startTry, getMicrophoneStream, hmic]
  · intro opts e hfail
    obtain ⟨sa, hs⟩ := start_fail_state s env opts h e hfail
    rw [hs]
    exact (cleanup_clears sa).2.2.2.2.2

/-- Witness for C3 (amended), on the environment where the microphone
is denied and there is no screen source. -/
theorem C3_amended_no_source_witness :
    (start initState bothFailEnv ⟨false, false⟩).2 = some RecError.noSource ∧
    (start initState bothFailEnv ⟨false, true⟩).2 = some RecError.noSource ∧
    (start initState bothFailEnv ⟨true, true⟩).2 = some RecError.micPermission ∧
    (start initState bothFailEnv ⟨true, true⟩).1.isRecording = false := by
  have h := C3_amended_no_source initState bothFailEnv rfl
  exact ⟨h.1, h.2.1 SysAudioErr.noScreenSource rfl, h.2.2.1 rfl true,
    h.2.2.2 ⟨true, true⟩ RecError.micPermission (h.2.2.1 rfl true)⟩

/-- Claim C4: a requested microphone that cannot be acquired is fatal
(`start` rejects with the acquisition error, after cleanup), while a
failing system-audio acquisition is non-fatal: the session starts with
the remaining source, system stream degraded to null. -/
theorem C4_mic_fatal_system_nonfatal (s : RecState) (env : Env)
    (h : s.isRecording = false) :
    (env.micResult = none → ∀ b,
      start s env ⟨true, b⟩ = (cleanup s, some RecError.micPermission)) ∧
    (∀ m err, env.micResult = some m → getSystemAudioInner env = .error err →
      env.recorderOk = true →
      (start s env ⟨true, true⟩).2 = none ∧
      (start s env ⟨true, true⟩).1.isRecording = true ∧
      (start s env ⟨true, true⟩).1.micStream = some m ∧
      (start s env ⟨true, true⟩).1.systemStream = none) := by
  constructor
  · intro hmic b
    simp [start, h, startTry, getMicrophoneStream, hmic]
  · intro m err hmic herr hrec
    have hsys : getSystemAudioStream env = (none, []) := by
      rw [getSystemAudioStream, herr]
    simp [start, h, startTry, getMicrophoneStream, hmic, hsys, mixAudioStreams, hrec]

/-- Witness for C4: denied microphone is fatal; granted microphone
with no screen source still starts. -/
theorem C4_mic_fatal_system_nonfatal_witness :
    start initState bothFailEnv ⟨true, true⟩
      = (cleanup initState, some RecError.micPermission) ∧
    (start initState micOnlyEnv ⟨true, true⟩).2 = none ∧
    (start initState micOnlyEnv ⟨true, true⟩).1.isRecording = true :=
  ⟨(C4_mic_fatal_system_nonfatal initState bothFailEnv rfl).1 rfl true,
   ((C4_mic_fatal_system_nonfatal initState micOnlyEnv rfl).2 ⟨[1], []⟩
      SysAudioErr.noScreenSource rfl rfl rfl).1,
   ((C4_mic_fatal_system_nonfatal initState micOnlyEnv rfl).2 ⟨[1], []⟩
      SysAudioErr.noScreenSource rfl rfl rfl).2.1⟩

end MeetingRec

namespace MeetingRec

/-- Counterexample to claim C6 as stated: with only system audio
requested, a desktop-capture stream is acquired that has a video track
(id 7) but no audio track; `start` then fails with NoSourceError, yet
track 7 is never stopped — the `'无法获取系统音频'` throw inside
`getSystemAudioStream` happens before the video tracks are stopped,
and the discarded stream is not referenced by `cleanup`. -/
theorem C6_counterexample :
    (start initState noAudioSysEnv ⟨false, true⟩).2 = some RecError.noSource ∧
    7 ∈ acquiredTracks noAudioSysEnv ⟨false, true⟩ ∧
    7 ∉ (start initState noAudioSysEnv ⟨false, true⟩).1.stoppedTracks :=
  ⟨rfl, by decide, by decide⟩

/-- Claim C6 (amended): whenever `start` fails after the
already-recording guard, cleanup runs before the failure propagates —
every stream/recorder reference is cleared, the audio graph reference
is dropped, the recording flag is false, every track of an acquired
microphone stream is stopped, and for a system stream that acquisition
actually returned, its audio tracks and the discarded video tracks are
stopped.  (Tracks of a desktop stream discarded inside system-audio
acquisition because it had no audio track are NOT stopped; that case
is excluded by the `getSystemAudioStream env = (some st, vids)`
hypothesis.) -/
theorem C6_amended_cleanup_on_failure (s : RecState) (env : Env) (opts : Options)
    (h : s.isRecording = false) (e : RecError)
    (hfail : (start s env opts).2 = some e) :
    ((start s env opts).1.micStream = none ∧
     (start s env opts).1.systemStream = none ∧
     (start s env opts).1.audioContext = none ∧
     (start s env opts).1.mixedStream = none ∧
     (start s env opts).1.mediaRecorder = none ∧
     (start s env opts).1.isRecording = false) ∧
    (∀ m, opts.includeMic = true → env.micResult = some m →
      ∀ t ∈ m.getTracks, t ∈ (start s env opts).1.stoppedTracks) ∧
    (∀ st vids, opts.includeSystem = true →
      (opts.includeMic = true → env.micResult.isSome = true) →
      getSystemAudioStream env = (some st, vids) →
      ∀ t ∈ st.getTracks ++ vids, t ∈ (start s env opts).1.stoppedTracks) := by
  obtain ⟨im, is⟩ := opts
  refine ⟨?_, ?_, ?_⟩
  · obtain ⟨sa, hs⟩ := start_fail_state s env ⟨im, is⟩ h e hfail
    rw [hs]
    exact cleanup_clears sa
  · intro m him hmic t ht
    subst him
    cases is with
    | false =>
      cases hrec : env.recorderOk with
      | true =>
        simp [start, h, startTry, getMicrophoneStream, hmic, mixAudioStreams, hrec] at hfail
      | false =>
        simp [start, h, startTry, getMicrophoneStream, hmic, mixAudioStreams, hrec]
        exact cleanup_stops_mic _ m rfl t ht
    | true =>
      rcases hsys : getSystemAudioStream env with ⟨sysOpt, vids⟩
      cases sysOpt with
      | none =>
        cases hrec : env.recorderOk with
        | true =>
          simp [start, h, startTry, getMicrophoneStream, hmic, hsys,
            mixAudioStreams, hrec] at hfail
        | false =>
          simp [start, h, startTry, getMicrophoneStream, hmic, hsys,
            mixAudioStreams, hrec]
          exact cleanup_stops_mic _ m rfl t ht
      | some st =>
        cases hrec : env.recorderOk with
        | true =>
          simp [start, h, startTry, getMicrophoneStream, hmic, hsys,
            mixAudioStreams, hrec] at hfail
        | false =>
          simp [start, h, startTry, getMicrophoneStream, hmic, hsys,
            mixAudioStreams, hrec]
          exact cleanup_stops_mic _ m rfl t ht
  · intro st vids his hmicOk hsys t ht
    subst his
    have hmem : t ∈ st.getTracks ∨ t ∈ vids := List.mem_append.mp ht
    cases im with
    | false =>
      cases hrec : env.recorderOk with
      | true =>
        simp [start, h, startTry, hsys, mixAudioStreams, hrec] at hfail
      | false =>
        simp [start, h, startTry, hsys, mixAudioStreams, hrec]
        rcases hmem with hmem | hmem
        · exact cleanup_stops_system _ st rfl t hmem
        · exact cleanup_preserves_stopped _ t (by simp [hmem])
    | true =>
      obtain ⟨m, hmic⟩ := Option.isSome_iff_exists.mp (hmicOk rfl)
      cases hrec : env.recorderOk with
      | true =>
        simp [start, h, startTry, getMicrophoneStream, hmic, hsys,
          mixAudioStreams, hrec] at hfail
      | false =>
        simp [start, h, startTry, getMicrophoneStream, hmic, hsys,
          mixAudioStreams, hrec]
        rcases hmem with hmem | hmem
        · exact cleanup_stops_system _ st rfl t hmem
        · exact cleanup_preserves_stopped _ t (by simp [hmem])

/-- Witness for C6 (amended): microphone and system audio both
acquired, then the `MediaRecorder` constructor fails; the microphone
track 1, the system audio track 2, and the discarded system video
track 3 are all stopped, and the graph reference is gone. -/
theorem C6_amended_cleanup_on_failure_witness :
    (start initState recFailEnv ⟨true, true⟩).1.audioContext = none ∧
    1 ∈ (start initState recFailEnv ⟨true, true⟩).1.stoppedTracks ∧
    2 ∈ (start initState recFailEnv ⟨true, true⟩).1.stoppedTracks ∧
    3 ∈ (start initState recFailEnv ⟨true, true⟩).1.stoppedTracks := by
  have h := C6_amended_cleanup_on_failure initState recFailEnv ⟨true, true⟩ rfl
    RecError.recorderCreation rfl
  exact ⟨h.1.2.2.1,
    h.2.1 ⟨[1], []⟩ rfl rfl 1 (by decide),
    h.2.2 ⟨[2], []⟩ [3] rfl (fun _ => rfl) rfl 2 (by decide),
    h.2.2 ⟨[2], []⟩ [3] rfl (fun _ => rfl) rfl 3 (by decide)⟩

end MeetingRec
